import Mathlib

/-!
Verification of the request validation and dispatch layer of this FastAPI
service (src/main.py): the shared-secret guard `get_secret_key`, the chat
dispatch handler `chat` (POST /api/chat/opensourcemodel), and the
fine-tuning handler `finetune` (POST /api/finetuning/openai).

The handlers are embedded shallowly. External collaborators that the
handlers merely call (the two fine-tuning validators, the OpenAI upload and
job-submission calls, json.loads, the text-generation routines and the
prompt builder) are passed in as function parameters, so every theorem
quantifies over them unless it needs a concrete instance. Exceptions are
modelled with `Except`: a handler result `Except.error e` is an exception
propagating out of the handler body (FastAPI would turn an `HTTPException`
into the corresponding HTTP response and anything else into a generic 500).
Alongside its result each handler returns the list of `Event`s it performed,
in order, so that theorems can speak about which external calls were made.
-/

/-- Python runtime values, as far as the embedded handlers inspect them.
`typingOptionalStr` is the object `Optional[str]` of the `typing` module: it
is the declared default of the `suffix` parameter at src/main.py line 101
(`suffix: str = Optional[str]`), a value distinct from `None` and from every
string. `funcRef` is a reference to a named function object. -/
inductive PyVal where
  | none
  | bool (b : Bool)
  | int (n : Int)
  | str (s : String)
  | typingOptionalStr
  | list (xs : List PyVal)
  | dict (entries : List (String × PyVal))
  | funcRef (name : String)

/-- Exceptions that the embedded handler bodies can raise.
`httpException status_code detail` models `fastapi.HTTPException`;
`jsonDecodeError` models the error `json.loads` raises on malformed input;
`unboundLocalError` models Python referencing a local variable before
assignment; `typeError` models a call with missing required arguments. -/
inductive PyError where
  | httpException (status_code : Nat) (detail : String)
  | jsonDecodeError (msg : String)
  | unboundLocalError (name : String)
  | typeError (msg : String)

/-- The strategy tag of the spec. Modelled from the spec: the spec's data
model gives each ModelEntry a chat-template/prompt strategy tag attached at
registry construction (the construction lives in load_models/model_list.py
and load_models/model_loader.py, which are not under src/). The handler in
src/main.py reads only the model and tokenizer fields of an entry, so the
embedded `chat` below never consults this tag; carrying it in the entry lets
theorems ask whether dispatch is determined by it. -/
inductive Strategy where
  | direct
  | templated
deriving DecidableEq

/-- One entry of the `loaded_models` registry, as the chat handler accesses
it: `loaded_models[model_name]["model"]` and
`loaded_models[model_name]["tokenizer"]` (src/main.py lines 80-81), plus the
strategy tag described at `Strategy`. The model and tokenizer handles are
loaded by external collaborators and never inspected here. -/
structure ModelEntry where
  model : PyVal
  tokenizer : PyVal
  strategy : Strategy

/-- Python dict lookup on a registry: `name in loaded_models.keys()` and
`loaded_models[name]` of src/main.py lines 77-81, fused into one `Option`
valued lookup. -/
def registryGet (loaded_models : List (String × ModelEntry)) (name : String) :
    Option ModelEntry :=
  (loaded_models.find? (fun p => p.1 == name)).map (fun p => p.2)

/-- Python dict lookup `d[key]` on a string-keyed dict of values; `Option.none`
models the `KeyError` case. -/
def dictGet (d : List (String × PyVal)) (key : String) : Option PyVal :=
  (d.find? (fun p => p.1 == key)).map (fun p => p.2)

/-- The externally observable actions of the two handlers, recorded in order:
the two validator runs, the two OpenAI calls of the fine-tuning path with the
arguments the handler forwards, and the two generation-routine calls of the
chat path with the forwarded question or assembled prompt. -/
inductive Event where
  | validateFormat
  | validateMessages
  | uploadCall
  | fineTuneCall (file_id : PyVal) (fine_tuning_model : String) (suffix : PyVal) (n_epochs : Int)
  | generatePhi (question : Option String)
  | generatePipeline (prompt : String)

/-- The body of the `ChatMessages` request model as the chat handler reads it:
`selected_model`, `chat_history` (ordered role and content pairs) and
`question`. Modelled from the spec for the field types: the class itself is
declared in models.py, which is not under src/; the spec's data model makes
the question field optional and the history an ordered sequence of role plus
content pairs. -/
structure ChatMessages where
  selected_model : String
  chat_history : List (String × String)
  question : Option String

/-- The handler of POST /api/chat/opensourcemodel (src/main.py lines 69-95),
after the `get_secret_key` dependency has admitted the request. The
generation routines `generate_text_phi1_5` and `generate_text_pipeline`, the
static configuration list `models` and the prompt builder `create_prompt`
are external collaborators passed as parameters; a generation routine
returning `Except.error m` models it raising an exception with message m.
The registry membership test of line 77 and the indexing of lines 80-81 are
fused into one match on `registryGet`. The try block of lines 82-95 is
rendered by matching on the generation result: success builds the response
dict of lines 90-93, and a raised exception is caught and re-raised as
`HTTPException(status_code=500, detail=str(e))` (line 95). -/
def chat {α : Type} (loaded_models : List (String × ModelEntry))
    (generate_text_phi1_5 : PyVal → PyVal → Option String → Except String String)
    (models : α)
    (create_prompt : α → String → List (String × String) → String)
    (generate_text_pipeline : PyVal → PyVal → String → Except String String)
    (chat_messages : ChatMessages) :
    Except PyError (List (String × PyVal)) × List Event :=
  let model_name := chat_messages.selected_model
  let chat_history := chat_messages.chat_history
  match registryGet loaded_models model_name with
  | Option.none =>
      (Except.error (PyError.httpException 400 "Invalid model name"), [])
  | Option.some entry =>
      let model := entry.model
      let tokenizer := entry.tokenizer
      if model_name = "microsoft/phi-1_5" then
        let question := chat_messages.question
        match generate_text_phi1_5 model tokenizer question with
        | Except.ok generated_text =>
            (Except.ok [("success", PyVal.bool true),
                        ("message", PyVal.str generated_text)],
             [Event.generatePhi question])
        | Except.error e =>
            (Except.error (PyError.httpException 500 e), [Event.generatePhi question])
      else
        let prompt := create_prompt models model_name chat_history
        match generate_text_pipeline model tokenizer prompt with
        | Except.ok generated_text =>
            (Except.ok [("success", PyVal.bool true),
                        ("message", PyVal.str generated_text)],
             [Event.generatePipeline prompt])
        | Except.error e =>
            (Except.error (PyError.httpException 500 e), [Event.generatePipeline prompt])

/-- The shared-secret guard `get_secret_key` (src/main.py lines 34-42): the
Authorization header must start with the literal "Bearer "; the remainder
after that 7-character slice (`authorization[len(prefix):]`) must equal the
process-wide SECRET_KEY; any failure raises HTTPException 401, and success
returns the stripped value. -/
def get_secret_key (SECRET_KEY : String) (authorization : String) :
    Except PyError String :=
  let bearer := "Bearer "
  if authorization.startsWith bearer = false then
    Except.error (PyError.httpException 401 "Unauthorized: Invalid Secret Key")
  else
    let secret_key := authorization.drop bearer.length
    if secret_key ≠ SECRET_KEY then
      Except.error (PyError.httpException 401 "Unauthorized: Invalid Secret Key")
    else
      Except.ok secret_key

/-- The line structure `file_str.splitlines()` of src/main.py line 107, for
newline-separated text: split the decoded file at each newline character.
(The carriage-return variants Python also splits at play no part in any
claim.) -/
def splitLinesAux : List Char → List Char → List String
  | [], acc => [String.mk acc.reverse]
  | c :: rest, acc =>
      if c = '\n' then String.mk acc.reverse :: splitLinesAux rest []
      else splitLinesAux rest (c :: acc)

/-- See `splitLinesAux`. -/
def splitLines (file_str : String) : List String :=
  splitLinesAux file_str.data []

/-- The list comprehension of src/main.py line 107:
`[json.loads(line) for line in file_str.splitlines() if line]`. Blank lines
are skipped (`if line`: Python string truthiness is non-emptiness); the
first non-blank line on which `json_loads` raises aborts the whole
comprehension with that error, rendered as `PyError.jsonDecodeError`. -/
def parseLinesList (json_loads : String → Except String PyVal) :
    List String → Except PyError (List PyVal)
  | [] => Except.ok []
  | line :: rest =>
      if line = "" then parseLinesList json_loads rest
      else
        match json_loads line with
        | Except.error m => Except.error (PyError.jsonDecodeError m)
        | Except.ok v =>
            match parseLinesList json_loads rest with
            | Except.error e => Except.error e
            | Except.ok vs => Except.ok (v :: vs)

/-- The statement `raise HTTPException(detail=str(e))` of src/main.py
line 127. FastAPI declares `HTTPException(status_code, detail=None, ...)`
with `status_code` a required positional parameter, as every other call site
in src/main.py supplies it (lines 37, 41, 48, 78, 95); line 127 omits it, so
evaluating the call raises a TypeError before any HTTPException exists, and
the detail string that was computed is discarded with the abandoned call. -/
def raise_http_exception_detail_only (_detail : String) : PyError :=
  PyError.typeError
    "HTTPException missing 1 required positional argument: status_code"

/-- The handler of POST /api/finetuning/openai (src/main.py lines 97-137),
after the `get_secret_key` dependency has admitted the request. The two
validators (finetuning/validation.py) and the two OpenAI calls
(finetuning/openai.py) are external collaborators passed as parameters; an
OpenAI call returning `Except.error m` models it raising an exception whose
`str` is m. The uploaded file is taken after the utf-8 decode of line 106 as
`file_str` (the upload of line 116 forwards those same bytes). Control flow
of the source: parse the lines (line 107, any decode error propagating
uncaught); run both validators (lines 109-110); if both error collections
are empty (line 112), upload, read the returned file id, submit the job,
read the returned job id, and return the success dict of lines 122-125 — a
missing id key or a raised call lands in the except clause of lines 126-127,
which is `raise_http_exception_detail_only`; otherwise (lines 128-137) bind
the errors dict to the two validator function objects, then build the
rejection dict, whose `"id": fine_tuning_job_id` entry reads a local that
was never assigned on this path, raising UnboundLocalError. -/
def finetune
    (validate_data_format : List PyVal → List PyVal)
    (validate_messages : List PyVal → List PyVal)
    (upload_training_file : String → Except String (List (String × PyVal)))
    (fine_tune_openai_model : PyVal → String → PyVal → Int → Except String (List (String × PyVal)))
    (json_loads : String → Except String PyVal)
    (file_str : String) (fine_tuning_model : String) (suffix : PyVal) (n_epochs : Int) :
    Except PyError (List (String × PyVal)) × List Event :=
  match parseLinesList json_loads (splitLines file_str) with
  | Except.error e => (Except.error e, [])
  | Except.ok file_list =>
      let data_format_errors := validate_data_format file_list
      let messages_errors := validate_messages file_list
      let evs := [Event.validateFormat, Event.validateMessages]
      if messages_errors.isEmpty && data_format_errors.isEmpty then
        match upload_training_file file_str with
        | Except.error e =>
            (Except.error (raise_http_exception_detail_only e),
             evs ++ [Event.uploadCall])
        | Except.ok file_submit_result =>
            match dictGet file_submit_result "id" with
            | Option.none =>
                (Except.error (raise_http_exception_detail_only "KeyError: id"),
                 evs ++ [Event.uploadCall])
            | Option.some file_id =>
                match fine_tune_openai_model file_id fine_tuning_model suffix n_epochs with
                | Except.error e =>
                    (Except.error (raise_http_exception_detail_only e),
                     evs ++ [Event.uploadCall,
                             Event.fineTuneCall file_id fine_tuning_model suffix n_epochs])
                | Except.ok res =>
                    match dictGet res "id" with
                    | Option.none =>
                        (Except.error (raise_http_exception_detail_only "KeyError: id"),
                         evs ++ [Event.uploadCall,
                                 Event.fineTuneCall file_id fine_tuning_model suffix n_epochs])
                    | Option.some fine_tuning_job_id =>
                        (Except.ok [("success", PyVal.bool true),
                                    ("id", fine_tuning_job_id),
                                    ("message", PyVal.str "Your request has been successfully sent to OpenAI")],
                         evs ++ [Event.uploadCall,
                                 Event.fineTuneCall file_id fine_tuning_model suffix n_epochs])
      else
        let _errors := [("data_format", PyVal.funcRef "validate_data_format"),
                        ("messages", PyVal.funcRef "validate_messages")]
        (Except.error (PyError.unboundLocalError "fine_tuning_job_id"), evs)

/-- The declared default of the `suffix` parameter, src/main.py line 101:
`suffix: str = Optional[str]`. The right-hand side is evaluated by Python to
the typing construct `Optional[str]` itself, so the default VALUE of the
parameter is that object, not None and not a string. -/
def suffix_default : PyVal := PyVal.typingOptionalStr

/-- The fine-tuning route as FastAPI invokes it: a request that supplies the
suffix field passes `Option.some` of it, a request that omits the field makes
FastAPI fill in the declared default `suffix_default`, and the handler body
`finetune` runs on the resulting value. -/
def finetune_route
    (validate_data_format : List PyVal → List PyVal)
    (validate_messages : List PyVal → List PyVal)
    (upload_training_file : String → Except String (List (String × PyVal)))
    (fine_tune_openai_model : PyVal → String → PyVal → Int → Except String (List (String × PyVal)))
    (json_loads : String → Except String PyVal)
    (file_str : String) (fine_tuning_model : String)
    (suffix_field : Option PyVal) (n_epochs : Int) :
    Except PyError (List (String × PyVal)) × List Event :=
  finetune validate_data_format validate_messages upload_training_file
    fine_tune_openai_model json_loads file_str fine_tuning_model
    (suffix_field.getD suffix_default) n_epochs

/-! ## Concrete instances used by witnesses and counterexamples -/

/-- A registry entry with inert handles, tagged direct. -/
def demo_entry : ModelEntry :=
  ModelEntry.mk PyVal.none PyVal.none Strategy.direct

/-- A one-model registry holding the phi model. -/
def demo_reg : List (String × ModelEntry) := [("microsoft/phi-1_5", demo_entry)]

/-- A concrete direct-question generation routine: echoes the question, or a
fixed string when the question is absent. -/
def demo_gphi : PyVal → PyVal → Option String → Except String String :=
  fun _ _ q =>
    match q with
    | Option.some s => Except.ok s
    | Option.none => Except.ok "no-question"

/-- A concrete prompt builder over a trivial configuration. -/
def demo_cp : Unit → String → List (String × String) → String :=
  fun _ name _ => String.append "PROMPT:" name

/-- A concrete pipeline generation routine: echoes the prompt. -/
def demo_gpipe : PyVal → PyVal → String → Except String String :=
  fun _ _ p => Except.ok p

/-- A training record of the documented shape: a messages list with one
user message. -/
def demo_good_record : PyVal :=
  PyVal.dict [("messages",
    PyVal.list [PyVal.dict [("role", PyVal.str "user"), ("content", PyVal.str "hi")]])]

/-- The JSON line that `demo_json_loads` parses to `demo_good_record`. -/
def demo_good_line : String :=
  "\x7b\"messages\":[\x7b\"role\":\"user\",\"content\":\"hi\"\x7d]\x7d"

/-- The record parsed from the spec scenario line. -/
def demo_bad_record : PyVal := PyVal.dict [("bad", PyVal.str "shape")]

/-- The spec scenario line: a well-formed JSON object of the wrong shape. -/
def demo_bad_line : String := "\x7b\"bad\":\"shape\"\x7d"

/-- A record whose messages list exists and is non-empty but holds only a
system message. -/
def demo_sys_record : PyVal :=
  PyVal.dict [("messages",
    PyVal.list [PyVal.dict [("role", PyVal.str "system"), ("content", PyVal.str "x")]])]

/-- The JSON line that `demo_json_loads` parses to `demo_sys_record`. -/
def demo_sys_line : String :=
  "\x7b\"messages\":[\x7b\"role\":\"system\",\"content\":\"x\"\x7d]\x7d"

/-- A concrete stand-in for `json.loads`: parses the three demo lines and
raises on everything else. -/
def demo_json_loads : String → Except String PyVal := fun line =>
  if line = demo_good_line then Except.ok demo_good_record
  else if line = demo_bad_line then Except.ok demo_bad_record
  else if line = demo_sys_line then Except.ok demo_sys_record
  else Except.error "Expecting value: line 1 column 1 (char 0)"

/-- A validator that accepts everything. -/
def demo_pass_validator : List PyVal → List PyVal := fun _ => []

/-- A concrete upload call that succeeds with a file id. -/
def demo_upload : String → Except String (List (String × PyVal)) :=
  fun _ => Except.ok [("id", PyVal.str "file-123")]

/-- A concrete upload call that raises. -/
def demo_failing_upload : String → Except String (List (String × PyVal)) :=
  fun _ => Except.error "APIConnectionError: network down"

/-- A concrete job-submission call that succeeds with a job id. -/
def demo_ftm : PyVal → String → PyVal → Int → Except String (List (String × PyVal)) :=
  fun _ _ _ _ => Except.ok [("id", PyVal.str "ftjob-456")]

/-- Modelled from the spec: the format validator of finetuning/validation.py
(not under src/). Every record must be a mapping containing a `messages`
field whose value is a non-empty sequence; every deviating record
contributes an error keyed by its index and the field name, and all records
are checked. Used only to instantiate theorems that quantify over the
validators. -/
def record_format_ok : PyVal → Bool
  | PyVal.dict entries =>
      match dictGet entries "messages" with
      | Option.some (PyVal.list msgs) => !msgs.isEmpty
      | _ => false
  | _ => false

/-- See `record_format_ok`. -/
def spec_validate_data_format (records : List PyVal) : List PyVal :=
  (records.enum.filter (fun p => !record_format_ok p.2)).map
    (fun p => PyVal.dict [("index", PyVal.int (Int.ofNat p.1)),
                          ("field", PyVal.str "messages")])

/-- Modelled from the spec: the content validator of finetuning/validation.py
(not under src/) applies independent semantic rules over the same messages
sequences, such as required role presence; here, every record whose messages
hold no user-role entry contributes an error keyed by its index. Used only
to instantiate theorems that quantify over the validators. -/
def record_has_user_message : PyVal → Bool
  | PyVal.dict entries =>
      match dictGet entries "messages" with
      | Option.some (PyVal.list msgs) =>
          msgs.any (fun m =>
            match m with
            | PyVal.dict fields =>
                match dictGet fields "role" with
                | Option.some (PyVal.str r) => r == "user"
                | _ => false
            | _ => false)
      | _ => false
  | _ => false

/-- See `record_has_user_message`. -/
def spec_validate_messages (records : List PyVal) : List PyVal :=
  (records.enum.filter (fun p => !record_has_user_message p.2)).map
    (fun p => PyVal.dict [("index", PyVal.int (Int.ofNat p.1)),
                          ("rule", PyVal.str "missing user role")])

/-! ## Helper lemmas -/

/-- A list whose `isEmpty` test holds is nil. -/
theorem isEmpty_true_eq_nil {l : List PyVal} (h : l.isEmpty = true) : l = [] := by
  cases l with
  | nil => rfl
  | cons a t => simp [List.isEmpty] at h

/-! ## C8: the shared-secret guard -/

/-- Claim C8: the shared-secret guard fails with a 401 Unauthorized outcome
if and only if the Authorization header does not start with the literal
"Bearer " or the remainder after stripping that 7-character slice is not
equal, character for character, to the process-wide secret; otherwise it
returns the stripped value and admits the request. -/
theorem c8_secret_guard (SECRET_KEY : String) (authorization : String) :
    (get_secret_key SECRET_KEY authorization
        = Except.error (PyError.httpException 401 "Unauthorized: Invalid Secret Key")
      ↔ (authorization.startsWith "Bearer " = false
          ∨ ¬ authorization.drop ("Bearer ".length) = SECRET_KEY))
    ∧ (get_secret_key SECRET_KEY authorization
        = Except.error (PyError.httpException 401 "Unauthorized: Invalid Secret Key")
      ∨ get_secret_key SECRET_KEY authorization
        = Except.ok (authorization.drop ("Bearer ".length))) := by
  unfold get_secret_key
  by_cases h1 : authorization.startsWith "Bearer " = false
  · simp [h1]
  · by_cases h2 : authorization.drop ("Bearer ".length) = SECRET_KEY
    · simp [h1, h2]
    · simp [h1, h2]

/-! ## C4: unknown model identifiers are rejected before any generation -/

/-- Claim C4: for every chat request whose selected model identifier is not
a key of the loaded-model registry, the handler raises HTTPException 400
with detail "Invalid model name", and its event trace is empty: no
generation routine is invoked. Holds for every registry, every set of
external generation routines and every request. -/
theorem c4_invalid_model {α : Type} (loaded_models : List (String × ModelEntry))
    (gphi : PyVal → PyVal → Option String → Except String String)
    (models : α)
    (cp : α → String → List (String × String) → String)
    (gpipe : PyVal → PyVal → String → Except String String)
    (cm : ChatMessages)
    (h : registryGet loaded_models cm.selected_model = Option.none) :
    chat loaded_models gphi models cp gpipe cm
      = (Except.error (PyError.httpException 400 "Invalid model name"), []) := by
  simp [chat, h]

/-- Witness for C4 at the spec scenario: selected_model "not-a-model"
against a registry holding only the phi model. -/
theorem c4_witness :
    chat demo_reg demo_gphi () demo_cp demo_gpipe
        (ChatMessages.mk "not-a-model" [] Option.none)
      = (Except.error (PyError.httpException 400 "Invalid model name"), []) :=
  c4_invalid_model demo_reg demo_gphi () demo_cp demo_gpipe
    (ChatMessages.mk "not-a-model" [] Option.none) rfl

/-! ## C5: dispatch is by model-name string, not by the strategy tag -/

/-- A registry whose phi entry carries the templated strategy tag. -/
def tag_mismatch_entry : ModelEntry :=
  ModelEntry.mk PyVal.none PyVal.none Strategy.templated

/-- See `tag_mismatch_entry`. -/
def tag_mismatch_reg : List (String × ModelEntry) :=
  [("microsoft/phi-1_5", tag_mismatch_entry)]

/-- Counterexample to claim C5: the registered entry for "microsoft/phi-1_5"
carries the templated strategy tag, yet the handler runs the direct-question
variant, invoking the phi generation routine with the question: the variant
is selected by comparing the model identifier string on each request, not by
the per-model strategy tag attached to the registry entry. -/
theorem c5_strategy_tag_counterexample :
    registryGet tag_mismatch_reg "microsoft/phi-1_5" = Option.some tag_mismatch_entry
    ∧ tag_mismatch_entry.strategy = Strategy.templated
    ∧ (chat tag_mismatch_reg demo_gphi () demo_cp demo_gpipe
         (ChatMessages.mk "microsoft/phi-1_5" [] (Option.some "q"))).2
        = [Event.generatePhi (Option.some "q")] :=
  And.intro rfl (And.intro rfl rfl)

/-- Claim C5 as amended: for every chat request whose model is registered,
the handler selects exactly one of two variants by comparing the model
identifier string to "microsoft/phi-1_5" on each request (any strategy tag
carried by the registry entry is ignored): the direct-question variant
forwards the request question field to the phi generation routine, and the
templated-history variant builds the model-specific prompt
`create_prompt models model_name chat_history` from the full ordered history
and forwards the assembled prompt to the pipeline generation routine. -/
theorem c5_dispatch_by_name {α : Type} (loaded_models : List (String × ModelEntry))
    (gphi : PyVal → PyVal → Option String → Except String String)
    (models : α)
    (cp : α → String → List (String × String) → String)
    (gpipe : PyVal → PyVal → String → Except String String)
    (cm : ChatMessages) (entry : ModelEntry)
    (h : registryGet loaded_models cm.selected_model = Option.some entry) :
    (chat loaded_models gphi models cp gpipe cm).2
      = if cm.selected_model = "microsoft/phi-1_5"
        then [Event.generatePhi cm.question]
        else [Event.generatePipeline (cp models cm.selected_model cm.chat_history)] := by
  by_cases hname : cm.selected_model = "microsoft/phi-1_5"
  · have h2 : registryGet loaded_models "microsoft/phi-1_5" = Option.some entry := by
      rw [← hname]; exact h
    cases hg : gphi entry.model entry.tokenizer cm.question with
    | ok t => simp [chat, h2, hname, hg]
    | error e => simp [chat, h2, hname, hg]
  · cases hg : gpipe entry.model entry.tokenizer (cp models cm.selected_model cm.chat_history) with
    | ok t => simp [chat, h, hname, hg]
    | error e => simp [chat, h, hname, hg]

/-- Witness for the amended C5 at a concrete registered model and request. -/
theorem c5_dispatch_by_name_witness :
    (chat demo_reg demo_gphi () demo_cp demo_gpipe
        (ChatMessages.mk "microsoft/phi-1_5" [("user", "hello")] (Option.some "hi"))).2
      = if "microsoft/phi-1_5" = "microsoft/phi-1_5"
        then [Event.generatePhi (Option.some "hi")]
        else [Event.generatePipeline (demo_cp () "microsoft/phi-1_5" [("user", "hello")])] :=
  c5_dispatch_by_name demo_reg demo_gphi () demo_cp demo_gpipe
    (ChatMessages.mk "microsoft/phi-1_5" [("user", "hello")] (Option.some "hi"))
    demo_entry rfl

/-! ## C6: an absent question is forwarded, never a MissingField error -/

/-- Counterexample to claim C6: a request for "microsoft/phi-1_5" whose
question field is absent is not rejected with a MissingField client error:
the handler invokes the phi generation routine with the absent question and
returns the 200 success envelope built from its output. -/
theorem c6_no_missing_field_counterexample :
    chat demo_reg demo_gphi () demo_cp demo_gpipe
        (ChatMessages.mk "microsoft/phi-1_5" [] Option.none)
      = (Except.ok [("success", PyVal.bool true),
                    ("message", PyVal.str "no-question")],
         [Event.generatePhi Option.none]) := rfl

/-- Claim C6 as amended: for every chat request routed to the
direct-question variant (model "microsoft/phi-1_5"), the handler performs
no missing-field check: it invokes the phi generation routine with the
request question field exactly as given, present or absent, so an absent
question is forwarded as the absent value rather than producing a
MissingField client error. -/
theorem c6_question_forwarded {α : Type} (loaded_models : List (String × ModelEntry))
    (gphi : PyVal → PyVal → Option String → Except String String)
    (models : α)
    (cp : α → String → List (String × String) → String)
    (gpipe : PyVal → PyVal → String → Except String String)
    (cm : ChatMessages) (entry : ModelEntry)
    (h : registryGet loaded_models cm.selected_model = Option.some entry)
    (hphi : cm.selected_model = "microsoft/phi-1_5") :
    (chat loaded_models gphi models cp gpipe cm).2
      = [Event.generatePhi cm.question] := by
  have h2 : registryGet loaded_models "microsoft/phi-1_5" = Option.some entry := by
    rw [← hphi]; exact h
  cases hg : gphi entry.model entry.tokenizer cm.question with
  | ok t => simp [chat, h2, hphi, hg]
  | error e => simp [chat, h2, hphi, hg]

/-- Witness for the amended C6: a concrete phi request with the question
field absent is dispatched to the phi generation routine carrying the
absent value. -/
theorem c6_question_forwarded_witness :
    (chat demo_reg demo_gphi () demo_cp demo_gpipe
        (ChatMessages.mk "microsoft/phi-1_5" [("user", "earlier")] Option.none)).2
      = [Event.generatePhi Option.none] :=
  c6_question_forwarded demo_reg demo_gphi () demo_cp demo_gpipe
    (ChatMessages.mk "microsoft/phi-1_5" [("user", "earlier")] Option.none)
    demo_entry rfl rfl

/-! ## C10: a malformed non-blank line aborts parsing before validation -/

/-- If some non-blank line of the list fails to parse, the whole
comprehension raises a JSON decode error. -/
theorem parseLinesList_error_of_mem
    (json_loads : String → Except String PyVal) (ls : List String)
    (line : String) (hline : line ∈ ls) (hne : line ≠ "")
    (msg : String) (hbad : json_loads line = Except.error msg) :
    ∃ m2, parseLinesList json_loads ls
      = Except.error (PyError.jsonDecodeError m2) := by
  induction ls with
  | nil => cases hline
  | cons a t ih =>
    by_cases ha : a = ""
    · subst ha
      have hlt : line ∈ t := by
        cases hline with
        | head => exact absurd rfl hne
        | tail _ hmem => exact hmem
      obtain ⟨m2, hm2⟩ := ih hlt
      exact ⟨m2, by simp [parseLinesList, hm2]⟩
    · cases hja : json_loads a with
      | error m0 => exact ⟨m0, by simp [parseLinesList, ha, hja]⟩
      | ok v =>
        have hlt : line ∈ t := by
          cases hline with
          | head => rw [hbad] at hja; cases hja
          | tail _ hmem => exact hmem
        obtain ⟨m2, hm2⟩ := ih hlt
        exact ⟨m2, by simp [parseLinesList, ha, hja, hm2]⟩

/-- Blank lines are transparent to the comprehension: removing a blank line
anywhere leaves the parsed record list (or the raised error) unchanged. -/
theorem parseLinesList_skips_blank
    (json_loads : String → Except String PyVal) (ls1 ls2 : List String) :
    parseLinesList json_loads (ls1 ++ "" :: ls2)
      = parseLinesList json_loads (ls1 ++ ls2) := by
  induction ls1 with
  | nil => simp [parseLinesList]
  | cons a t ih =>
    by_cases ha : a = ""
    · simp [parseLinesList, ha, ih]
    · cases hja : json_loads a with
      | error m0 => simp [parseLinesList, ha, hja]
      | ok v => simp [parseLinesList, ha, hja, ih]

/-- Claim C10: for every uploaded fine-tuning file containing at least one
non-empty line that the JSON decoder rejects, the handler raises the decode
error before either validator runs (its event trace is empty, so the file
is never answered with the structured success false validation envelope),
while blank lines are silently skipped: removing a blank line anywhere
leaves the parsed record list the validators would see unchanged. -/
theorem c10_parse_raises_before_validation
    (validate_data_format validate_messages : List PyVal → List PyVal)
    (upload_training_file : String → Except String (List (String × PyVal)))
    (fine_tune_openai_model : PyVal → String → PyVal → Int → Except String (List (String × PyVal)))
    (json_loads : String → Except String PyVal)
    (file_str fine_tuning_model : String) (suffix : PyVal) (n_epochs : Int)
    (line : String) (hline : line ∈ splitLines file_str) (hne : line ≠ "")
    (msg : String) (hbad : json_loads line = Except.error msg) :
    (∃ m2, finetune validate_data_format validate_messages upload_training_file
        fine_tune_openai_model json_loads file_str fine_tuning_model suffix n_epochs
      = (Except.error (PyError.jsonDecodeError m2), []))
    ∧ (∀ ls1 ls2 : List String,
        parseLinesList json_loads (ls1 ++ "" :: ls2)
          = parseLinesList json_loads (ls1 ++ ls2)) := by
  constructor
  · obtain ⟨m2, hm2⟩ :=
      parseLinesList_error_of_mem json_loads (splitLines file_str) line hline hne msg hbad
    exact ⟨m2, by simp [finetune, hm2]⟩
  · exact fun ls1 ls2 => parseLinesList_skips_blank json_loads ls1 ls2

/-- Witness for C10: a two-line file whose second line is not JSON; the
handler result is the raised decode error with an empty event trace, and
blank-line removal leaves parsing unchanged. -/
theorem c10_witness :
    (∃ m2, finetune spec_validate_data_format spec_validate_messages demo_upload
        demo_ftm demo_json_loads
        (String.append demo_good_line "\nnot json") "gpt-3.5-turbo" (PyVal.str "s") 3
      = (Except.error (PyError.jsonDecodeError m2), []))
    ∧ (∀ ls1 ls2 : List String,
        parseLinesList demo_json_loads (ls1 ++ "" :: ls2)
          = parseLinesList demo_json_loads (ls1 ++ ls2)) :=
  c10_parse_raises_before_validation spec_validate_data_format spec_validate_messages
    demo_upload demo_ftm demo_json_loads
    (String.append demo_good_line "\nnot json") "gpt-3.5-turbo" (PyVal.str "s") 3
    "not json" (by simp [splitLines, demo_good_line, splitLinesAux])
    (by simp) "Expecting value: line 1 column 1 (char 0)"
    (by simp [demo_json_loads, demo_good_line, demo_bad_line, demo_sys_line])

/-! ## C1: validation gates every external call -/

/-- Claim C1: for every fine-tuning submission, whatever the validators, the
decoder and the provider calls are, an external-call event (training-file
upload or fine-tuning-job submission) appears in the handler trace only if
the lines parsed and both the format validator and the content validator
returned empty error collections over the parsed records: any validation
failure short-circuits before any external call. -/
theorem c1_no_external_call_unless_valid
    (validate_data_format validate_messages : List PyVal → List PyVal)
    (upload_training_file : String → Except String (List (String × PyVal)))
    (fine_tune_openai_model : PyVal → String → PyVal → Int → Except String (List (String × PyVal)))
    (json_loads : String → Except String PyVal)
    (file_str fine_tuning_model : String) (suffix : PyVal) (n_epochs : Int)
    (ev : Event)
    (hev : ev ∈ (finetune validate_data_format validate_messages upload_training_file
        fine_tune_openai_model json_loads file_str fine_tuning_model suffix n_epochs).2)
    (hcall : ev = Event.uploadCall
      ∨ ∃ f mo s e, ev = Event.fineTuneCall f mo s e) :
    ∃ records, parseLinesList json_loads (splitLines file_str) = Except.ok records
      ∧ validate_data_format records = []
      ∧ validate_messages records = [] := by
  cases hp : parseLinesList json_loads (splitLines file_str) with
  | error e =>
    simp only [finetune, hp] at hev
    cases hev
  | ok records =>
    by_cases hv : ((validate_messages records).isEmpty
        && (validate_data_format records).isEmpty) = true
    · have hmsg := isEmpty_true_eq_nil (Bool.and_elim_left hv)
      have hfmt := isEmpty_true_eq_nil (Bool.and_elim_right hv)
      exact ⟨records, hp ▸ rfl, hfmt, hmsg⟩
    · simp only [finetune, hp, hv] at hev
      rw [Bool.not_eq_true] at hv
      simp only [hv, Bool.false_eq_true, if_false] at hev
      rcases hcall with rfl | ⟨f, mo, s, e, rfl⟩
      · simp at hev
      · simp at hev

/-- Witness for C1: a concrete submission that passes both validators and is
uploaded; the upload event is in the trace, and the conclusion exhibits the
empty error collections. -/
theorem c1_witness :
    ∃ records, parseLinesList demo_json_loads (splitLines demo_good_line)
        = Except.ok records
      ∧ spec_validate_data_format records = []
      ∧ spec_validate_messages records = [] :=
  c1_no_external_call_unless_valid spec_validate_data_format spec_validate_messages
    demo_upload demo_ftm demo_json_loads demo_good_line "gpt-3.5-turbo"
    (PyVal.str "s") 3 Event.uploadCall
    (by simp [finetune, splitLines, demo_good_line, splitLinesAux, parseLinesList,
      demo_json_loads, spec_validate_data_format, spec_validate_messages,
      record_format_ok, record_has_user_message, demo_good_record, dictGet,
      demo_upload, demo_ftm])
    (Or.inl rfl)

/-! ## C2 and C3: the rejection path raises instead of answering -/

/-- Claim C2, evaluated at the spec scenario input: a file whose one line is
the JSON object with key bad and value shape is rejected by the format
validator, and the handler then raises UnboundLocalError on
`fine_tuning_job_id` while building the rejection dict (src/main.py
line 135 references a local that is only ever assigned on the success
path), so no rejection response of any shape is returned, with or without a
job-identifier field; no external call is made either (the trace ends at the
two validator runs). -/
theorem c2_rejection_raises_unbound_local :
    finetune spec_validate_data_format demo_pass_validator demo_upload demo_ftm
        demo_json_loads demo_bad_line "gpt-3.5-turbo" (PyVal.str "s") 3
      = (Except.error (PyError.unboundLocalError "fine_tuning_job_id"),
         [Event.validateFormat, Event.validateMessages]) := rfl

/-- Claim C3, evaluated at a failing input: on a record whose messages hold
no user-role entry the content validator computes a non-empty structured
error collection, yet the handler never returns it: the rejection path binds
the errors dict to the two validator function objects instead of the
computed collections (src/main.py lines 130-131) and then raises
UnboundLocalError on the never-assigned job identifier (line 135), so the
caller receives no success false envelope at all. -/
theorem c3_computed_errors_lost :
    spec_validate_messages [demo_sys_record]
      = [PyVal.dict [("index", PyVal.int 0), ("rule", PyVal.str "missing user role")]]
    ∧ finetune spec_validate_data_format spec_validate_messages demo_upload demo_ftm
        demo_json_loads demo_sys_line "gpt-3.5-turbo" (PyVal.str "s") 3
      = (Except.error (PyError.unboundLocalError "fine_tuning_job_id"),
         [Event.validateFormat, Event.validateMessages]) :=
  And.intro rfl rfl

/-! ## C7: provider failures on the fine-tuning path are not re-surfaced -/

/-- Claim C7, evaluated at a failing input: a submission that passes both
validators and whose training-file upload raises is not answered with an
error response carrying the original failure message: the except clause of
src/main.py line 127 calls HTTPException without the required status_code
argument, so a TypeError that mentions nothing of the original message
escapes the handler instead. (The chat handler at line 95 does re-surface
the original message as HTTPException 500.) -/
theorem c7_upload_failure_detail_lost :
    finetune demo_pass_validator demo_pass_validator demo_failing_upload demo_ftm
        demo_json_loads demo_good_line "gpt-3.5-turbo" (PyVal.str "s") 3
      = (Except.error (PyError.typeError
           "HTTPException missing 1 required positional argument: status_code"),
         [Event.validateFormat, Event.validateMessages, Event.uploadCall]) := rfl

/-! ## C9: the omitted suffix defaults to the typing construct itself -/

/-- Claim C9: for every fine-tuning request that omits the suffix field, the
suffix parameter takes its declared default, the typing construct
Optional[str] itself, which is neither None nor any string, and whenever the
submission passes both validators and the upload returns a file id, the
fine-tuning-job submission call is made with exactly that object as its
suffix argument. -/
theorem c9_suffix_default_forwarded
    (validate_data_format validate_messages : List PyVal → List PyVal)
    (upload_training_file : String → Except String (List (String × PyVal)))
    (fine_tune_openai_model : PyVal → String → PyVal → Int → Except String (List (String × PyVal)))
    (json_loads : String → Except String PyVal)
    (file_str fine_tuning_model : String) (n_epochs : Int)
    (records : List PyVal) (d : List (String × PyVal)) (file_id : PyVal)
    (hparse : parseLinesList json_loads (splitLines file_str) = Except.ok records)
    (hfmt : validate_data_format records = [])
    (hmsg : validate_messages records = [])
    (hup : upload_training_file file_str = Except.ok d)
    (hid : dictGet d "id" = Option.some file_id) :
    Event.fineTuneCall file_id fine_tuning_model suffix_default n_epochs
        ∈ (finetune_route validate_data_format validate_messages upload_training_file
            fine_tune_openai_model json_loads file_str fine_tuning_model
            Option.none n_epochs).2
    ∧ suffix_default = PyVal.typingOptionalStr
    ∧ suffix_default ≠ PyVal.none
    ∧ (∀ s, suffix_default ≠ PyVal.str s) := by
  refine ⟨?_, rfl, fun hc => PyVal.noConfusion hc, fun s hc => PyVal.noConfusion hc⟩
  simp only [finetune_route, Option.getD, finetune, hparse, hfmt, hmsg, hup, hid,
    List.isEmpty, Bool.and_self, if_true]
  cases hft : fine_tune_openai_model file_id fine_tuning_model suffix_default n_epochs with
  | error e => simp
  | ok res =>
    cases hrid : dictGet res "id" with
    | none => simp [hft, hrid]
    | some jid => simp [hft, hrid]

/-- Witness for C9: a concrete request omitting the suffix field; the job
submission event carries the typing construct as its suffix argument. -/
theorem c9_witness :
    Event.fineTuneCall (PyVal.str "file-123") "gpt-3.5-turbo" suffix_default 3
        ∈ (finetune_route spec_validate_data_format spec_validate_messages demo_upload
            demo_ftm demo_json_loads demo_good_line "gpt-3.5-turbo"
            Option.none 3).2
    ∧ suffix_default = PyVal.typingOptionalStr
    ∧ suffix_default ≠ PyVal.none
    ∧ (∀ s, suffix_default ≠ PyVal.str s) :=
  c9_suffix_default_forwarded spec_validate_data_format spec_validate_messages
    demo_upload demo_ftm demo_json_loads demo_good_line "gpt-3.5-turbo" 3
    [demo_good_record] [("id", PyVal.str "file-123")] (PyVal.str "file-123")
    rfl rfl rfl rfl rfl
